import Mathlib

/-!
Shallow embedding of the Adyen online-payment-flow core of this repository:
the webhook reconciliation route (`action`, `createOrderPayment`,
`handlePaymentSuccess`, `handlePaymentFailure`, `handleCancelOrRefund`),
the user-triggered refund route, the session cleanup helper, and the
checkout-session amount computation (`createCheckoutSessionFromCart`,
`calculateCartTotal`).

Database rows are lists of records; Prisma calls become pure functions on a
`DBState`.  A Prisma call that can throw is modelled as an `Option DBState`
(`none` = the call threw); `try/catch` blocks in the source become
`Option.getD`-style recovery to the unchanged state.  JavaScript numbers are
modelled as `ℚ`.
-/

namespace AdyenFlow

/-- Order.status values used by the application; `REFUND_IN_PROGRESS` stands
for the string `"REFUND IN PROGRESS"`. -/
inductive OrderStatus
  | PENDING
  | SUCCESSFUL
  | FAILED
  | REFUND_IN_PROGRESS
  | REFUNDED
  | CANCELLED
  deriving DecidableEq, Repr

/-- An `Order` row; only the columns the reconciliation core reads or
writes are kept. -/
structure Order where
  id : String
  userId : String
  status : OrderStatus
  deriving DecidableEq, Repr

/-- The `amount` object of a notification item: both fields can be absent. -/
structure Amount where
  value : Option ℚ
  currency : Option String
  deriving DecidableEq, Repr

/-- An Adyen `NotificationRequestItem` as read by the webhook route.
`modificationAction` is `additionalData?.['modification.action']` and
`checkoutSessionId` is `additionalData?.checkoutSessionId`. -/
structure Notification where
  merchantReference : String
  merchantAccountCode : String
  paymentMethod : String
  pspReference : String
  originalReference : Option String
  reason : Option String
  success : String
  eventCode : String
  amount : Option Amount
  eventDate : String
  modificationAction : Option String
  checkoutSessionId : Option String
  deriving DecidableEq, Repr

/-- An `OrderPayment` row (the payment ledger).  `rawWebhookData` holds the
serialized notification; serialization is injective on parsed items, so the
row stores the notification itself. -/
structure OrderPayment where
  orderId : String
  merchantAccountCode : String
  merchantReference : String
  checkoutSessionId : Option String
  paymentMethod : String
  pspReference : String
  reason : Option String
  success : Bool
  eventCode : String
  amount : ℚ
  currency : String
  eventDate : String
  rawWebhookData : Notification
  deriving DecidableEq, Repr

/-- An `AdyenSession` row; only the columns cleanup reads are kept. -/
structure AdyenSession where
  sessionId : String
  userId : String
  orderId : String
  deriving DecidableEq, Repr

/-- The persistent state: the three tables the payment core touches. -/
structure DBState where
  orders : List Order
  payments : List OrderPayment
  sessions : List AdyenSession
  deriving DecidableEq, Repr

/-- JavaScript `x || null` for an optional string: the empty string is falsy. -/
def jsOrNone : Option String → Option String
  | none => none
  | some s => if s = "" then none else some s

/-- `amount?.value ? amount.value / 100 : 0`: convert minor units to major
units, with JavaScript truthiness (absent or zero value gives `0`). -/
def amountMajor : Option Amount → ℚ
  | none => 0
  | some a =>
    match a.value with
    | none => 0
    | some v => if v = 0 then 0 else v / 100

/-- `amount?.currency || "USD"` with JavaScript truthiness. -/
def amountCurrency : Option Amount → String
  | none => "USD"
  | some a =>
    match a.currency with
    | none => "USD"
    | some c => if c = "" then "USD" else c

/-- `additionalData?.['modification.action'] || 'refund'`. -/
def modAction (n : Notification) : String :=
  match n.modificationAction with
  | none => "refund"
  | some a => if a = "" then "refund" else a

/-- The `OrderPayment` column values `createOrderPayment` writes for a
notification item (both on the create and on the update path). -/
def paymentOfNotification (n : Notification) : OrderPayment :=
  { orderId := n.merchantReference
    merchantAccountCode := n.merchantAccountCode
    merchantReference := n.merchantReference
    checkoutSessionId := jsOrNone n.checkoutSessionId
    paymentMethod := n.paymentMethod
    pspReference := n.pspReference
    reason := jsOrNone n.reason
    success := n.success == "true"
    eventCode := n.eventCode
    amount := amountMajor n.amount
    currency := amountCurrency n.amount
    eventDate := n.eventDate
    rawWebhookData := n }

/-- `db.order.findUnique({ where: { id } })`. -/
def findOrder (s : DBState) (id : String) : Option Order :=
  s.orders.find? (fun o => o.id == id)

/-- `db.orderPayment.findUnique({ where: { orderId } })`. -/
def findPaymentByOrder (s : DBState) (oid : String) : Option OrderPayment :=
  s.payments.find? (fun p => p.orderId == oid)

/-- `db.orderPayment.findUnique({ where: { pspReference } })`. -/
def findPaymentByPsp (s : DBState) (psp : String) : Option OrderPayment :=
  s.payments.find? (fun p => p.pspReference == psp)

/-- `db.order.update({ where: { id }, data: { status } })`; the handlers only
call it for an order they just looked up, so it is modelled as a map over
the rows. -/
def updateOrderStatus (s : DBState) (id : String) (st : OrderStatus) : DBState :=
  { s with
    orders := s.orders.map (fun o => if o.id == id then { o with status := st } else o) }

/-- Modelled from the spec: the Prisma schema file (`prisma/schema.prisma`)
is not among the given sources.  Per §3 the ledger is keyed by order id
(`db.orderPayment.findUnique({ where: { orderId } })` needs a unique index),
`findUnique({ where: { pspReference } })` needs a unique index on
`pspReference`, and each ledger row belongs to an order (the
`include: { order: true }` relation), so `db.orderPayment.create` throws when
the referenced order does not exist or when either unique index would be
violated; `none` models the throw. -/
def dbCreatePayment (s : DBState) (p : OrderPayment) : Option DBState :=
  if (findOrder s p.orderId).isNone then none
  else if (findPaymentByOrder s p.orderId).isSome then none
  else if (findPaymentByPsp s p.pspReference).isSome then none
  else some { s with payments := s.payments ++ [p] }

/-- Modelled from the spec: see `dbCreatePayment` for the uniqueness
constraints.  `db.orderPayment.update({ where: { orderId: r }, data })` with
the full webhook column set throws when no row matches `r` or when the new
`pspReference` collides with a different row's unique `pspReference`. -/
def dbUpdatePaymentFromWebhook (s : DBState) (n : Notification) : Option DBState :=
  if (findPaymentByOrder s n.merchantReference).isNone then none
  else if s.payments.any
      (fun p => p.pspReference == n.pspReference && !(p.orderId == n.merchantReference)) then
    none
  else
    some { s with
      payments := s.payments.map
        (fun p => if p.orderId == n.merchantReference then paymentOfNotification n else p) }

/-- `cleanupSessionsForOrder(orderId)` as the webhook handler calls it (no
session to keep): delete every stored session of the order. -/
def cleanupSessionsForOrder (orderId : String) (s : DBState) : DBState :=
  { s with sessions := s.sessions.filter (fun ses => !(ses.orderId == orderId)) }

/-- `createOrderPayment(notificationItem)`: look up the ledger row keyed by
the merchant reference; update it when present, otherwise create it.  Both
storage errors are caught and logged inside the function and never rethrown,
so the state is returned unchanged when the write throws. -/
def createOrderPayment (n : Notification) (s : DBState) : DBState :=
  let attempt :=
    match findPaymentByOrder s n.merchantReference with
    | some _ => dbUpdatePaymentFromWebhook s n
    | none => dbCreatePayment s (paymentOfNotification n)
  attempt.getD s

/-- `handlePaymentSuccess(notificationItem)`: find the order by merchant
reference (a miss is logged and dropped), set its status to SUCCESSFUL, then
best-effort purge all sessions of the order (a cleanup failure is caught). -/
def handlePaymentSuccess (n : Notification) (s : DBState) : DBState :=
  match findOrder s n.merchantReference with
  | none => s
  | some _ =>
    cleanupSessionsForOrder n.merchantReference
      (updateOrderStatus s n.merchantReference OrderStatus.SUCCESSFUL)

/-- `handlePaymentFailure(notificationItem)`: find the order by merchant
reference (a miss is logged and dropped) and set its status to FAILED. -/
def handlePaymentFailure (n : Notification) (s : DBState) : DBState :=
  match findOrder s n.merchantReference with
  | none => s
  | some _ => updateOrderStatus s n.merchantReference OrderStatus.FAILED

/-- The `reason` string `handleCancelOrRefund` writes into the ledger row. -/
def refundReason (n : Notification) (act : String) : String :=
  act ++ ": " ++ toString (amountMajor n.amount) ++ " " ++ amountCurrency n.amount

/-- The `db.orderPayment.update({ where: { orderId }, data })` call at the
end of `handleCancelOrRefund`: overwrite event code, success flag, reason and
raw payload of the ledger row of the order. -/
def refundLedgerWrite (s : DBState) (orderId : String) (n : Notification)
    (act : String) : DBState :=
  { s with
    payments := s.payments.map
      (fun p =>
        if p.orderId == orderId then
          { p with
            eventCode := n.eventCode
            success := n.success == "true"
            reason := some (refundReason n act)
            rawWebhookData := n }
        else p) }

/-- `handleCancelOrRefund(notificationItem)`: look the ledger row up by the
notification's own `pspReference`; a miss is logged and dropped.  When
`success === "true"` the order's status becomes REFUNDED for a refund action
and CANCELLED otherwise; Prisma throws on the status update when the order
row is gone, and the caught error then also skips the ledger write. -/
def handleCancelOrRefund (n : Notification) (s : DBState) : DBState :=
  match findPaymentByPsp s n.pspReference with
  | none => s
  | some originalPayment =>
    let orderId := originalPayment.orderId
    let act := modAction n
    if n.success == "true" then
      if (findOrder s orderId).isSome then
        refundLedgerWrite
          (updateOrderStatus s orderId
            (if act == "refund" then OrderStatus.REFUNDED else OrderStatus.CANCELLED))
          orderId n act
      else s
    else refundLedgerWrite s orderId n act

/-- The body of a webhook request as the route sees it after
`JSON.parse`: the parse can throw, the `notificationItems` array can be
absent or empty, or it holds a first item and the remaining items. -/
inductive WebhookBody
  | unparseable
  | noItems
  | items (first : Notification) (rest : List Notification)
  deriving DecidableEq, Repr

namespace Webhook

/-- The webhook route `action`.  `validate` is the external
`hmacValidator.validateHMAC` primitive and `hmacKey` is
`process.env.ADYEN_HMAC_KEY`.  Non-POST requests get 405; a body that fails
`JSON.parse` throws into the catch-all, which acknowledges with 202; an
absent or empty item list gets 400; a missing HMAC key gets 500; a failed
check on the first item gets 401; otherwise the first item is processed and
the route acknowledges with 202. -/
def action (validate : Notification → String → Bool) (hmacKey : Option String)
    (method : String) (body : WebhookBody) (s : DBState) : Nat × DBState :=
  if method ≠ "POST" then (405, s)
  else
    match body with
    | WebhookBody.unparseable => (202, s)
    | WebhookBody.noItems => (400, s)
    | WebhookBody.items first _rest =>
      match hmacKey with
      | none => (500, s)
      | some key =>
        if !(validate first key) then (401, s)
        else
          let s1 := createOrderPayment first s
          let s2 :=
            if first.eventCode == "CANCEL_OR_REFUND" && first.success == "true" then
              handleCancelOrRefund first s1
            else s1
          let s3 :=
            if first.eventCode == "AUTHORISATION" && first.success == "true" then
              handlePaymentSuccess first s2
            else s2
          let s4 :=
            if first.eventCode == "AUTHORISATION" && first.success == "false" then
              handlePaymentFailure first s3
            else s3
          (202, s4)

end Webhook

/-- Result of the user-triggered refund route: HTTP status, resulting state,
and whether `adyenService.refundPayment` was invoked. -/
structure RefundResult where
  status : Nat
  state : DBState
  refundCalled : Bool
  deriving DecidableEq, Repr

namespace Refund

/-- The orders route `action` (user-triggered refund).  `orderId` is the
form field (`none` or `""` is falsy and rejected with 400); the order must
exist and belong to the caller (else 404), carry a payment row (else 404)
and have status SUCCESSFUL (else 400).  `refundOk` is the outcome of the
external `adyenService.refundPayment` call: a throw is caught and answered
with 500 before any status write; on success the order becomes
REFUND IN PROGRESS and the route answers 200. -/
def action (userId : String) (orderId : Option String) (refundOk : Bool)
    (s : DBState) : RefundResult :=
  match orderId with
  | none => ⟨400, s, false⟩
  | some oid =>
    if oid = "" then ⟨400, s, false⟩
    else
      match s.orders.find? (fun o => o.id == oid && o.userId == userId) with
      | none => ⟨404, s, false⟩
      | some order =>
        match findPaymentByOrder s oid with
        | none => ⟨404, s, false⟩
        | some _ =>
          if order.status ≠ OrderStatus.SUCCESSFUL then ⟨400, s, false⟩
          else if !refundOk then ⟨500, s, true⟩
          else ⟨200, updateOrderStatus s oid OrderStatus.REFUND_IN_PROGRESS, true⟩

end Refund

/-- A catalog product; only the fields the amount computation reads. -/
structure Product where
  id : String
  name : String
  price : ℚ
  deriving DecidableEq, Repr

/-- A cart row joined with its product (`CartItemWithProduct`). -/
structure CartItem where
  product : Product
  quantity : ℕ
  deriving DecidableEq, Repr

/-- JavaScript `Math.round`: round half toward positive infinity. -/
def jsRound (x : ℚ) : ℤ := ⌊x + 1 / 2⌋

/-- `calculateCartTotal(cartItems)`: `reduce` of unit price times quantity
starting from `0`. -/
def calculateCartTotal (items : List CartItem) : ℚ :=
  items.foldl (fun total it => total + it.product.price * (it.quantity : ℚ)) 0

/-- `tax = subtotal * 0.08` in `createCheckoutSessionFromCart` (the subtotal
there is the same `reduce` as `calculateCartTotal`). -/
def cartTax (items : List CartItem) : ℚ :=
  calculateCartTotal items * (8 / 100)

/-- `total = subtotal + tax` in `createCheckoutSessionFromCart`. -/
def cartTotal (items : List CartItem) : ℚ :=
  calculateCartTotal items + cartTax items

/-- A line item of the checkout-session request. -/
structure SessionLineItem where
  id : String
  quantity : ℕ
  amountIncludingTax : ℤ
  deriving DecidableEq, Repr

/-- The parts of the `CreateCheckoutSessionRequest` the amount claims are
about. -/
structure SessionRequest where
  amountValue : ℤ
  currency : String
  reference : String
  lineItems : List SessionLineItem
  deriving DecidableEq, Repr

/-- `createCheckoutSessionFromCart(cartItems, orderId, ...)`: the request
carries `Math.round(total * 100)` minor units and one line item per cart
entry with `Math.round(price * quantity * 100)`. -/
def createCheckoutSessionFromCart (items : List CartItem) (orderId : String) :
    SessionRequest :=
  { amountValue := jsRound (cartTotal items * 100)
    currency := "USD"
    reference := orderId
    lineItems := items.map
      (fun it =>
        { id := it.product.id
          quantity := it.quantity
          amountIncludingTax := jsRound (it.product.price * (it.quantity : ℚ) * 100) }) }

/-- Rounding to two decimal places, as the spec's `round2` reads; used only
to compare the spec's stated tax formula with the one the code computes. -/
def specRound2 (x : ℚ) : ℚ := (jsRound (x * 100) : ℚ) / 100

/-- Number of ledger rows keyed by one order id. -/
def ledgerCount (s : DBState) (oid : String) : ℕ :=
  (s.payments.filter (fun p => p.orderId == oid)).length

/-- Ledger rows have pairwise distinct `orderId` keys (the unique index). -/
def UniqueOrderIds (s : DBState) : Prop :=
  s.payments.Pairwise (fun p q => p.orderId ≠ q.orderId)

/-- Every ledger row references an existing order (the `order` relation the
webhook handlers traverse with an `include`). -/
def PaymentsHaveOrders (s : DBState) : Prop :=
  ∀ p ∈ s.payments, (findOrder s p.orderId).isSome

/-- A notification fixture for the concrete witnesses: event `ec` with
outcome `succ` for order `ref`, provider reference `psp`, modification
action `act`, amount 5400 minor units. -/
def mkNotification (ref psp ec succ : String) (act : Option String) : Notification :=
  { merchantReference := ref
    merchantAccountCode := "MA1"
    paymentMethod := "scheme"
    pspReference := psp
    originalReference := none
    reason := none
    success := succ
    eventCode := ec
    amount := some { value := some 5400, currency := some "USD" }
    eventDate := "2025-01-01T00:00:00Z"
    modificationAction := act
    checkoutSessionId := none }

/-- An order fixture for the concrete witnesses. -/
def mkOrder (id uid : String) (st : OrderStatus) : Order :=
  { id := id, userId := uid, status := st }

/-- Response-code table of the webhook route for POST requests, as amended:
400 only for a parsed body without notification items, 500 when no HMAC key
is configured, 401 for a failed authenticity check, 202 in every other case
— a body that fails JSON parsing included. -/
def webhookStatusSpec (validate : Notification → String → Bool)
    (hmacKey : Option String) : WebhookBody → Nat
  | WebhookBody.unparseable => 202
  | WebhookBody.noItems => 400
  | WebhookBody.items first _ =>
    match hmacKey with
    | none => 500
    | some key => if validate first key then 202 else 401

/-- The empty database, used by the concrete witnesses. -/
def emptyDB : DBState :=
  { orders := [], payments := [], sessions := [] }

end AdyenFlow

namespace AdyenFlow

/-! Helper lemmas shared by the claim theorems. -/

/-- `find?` commutes with a `map` whose function does not change the value
of the tested predicate. -/
theorem find?_map_stable {α : Type} (p : α → Bool) (f : α → α)
    (hf : ∀ a, p (f a) = p a) :
    ∀ l : List α, (l.map f).find? p = (l.find? p).map f := by
  intro l
  induction l with
  | nil => rfl
  | cons a t ih =>
    simp only [List.map_cons, List.find?_cons, hf a]
    cases h : p a
    · simpa using ih
    · rfl

/-- The length of a `filter` is unchanged by a `map` whose function does not
change the value of the tested predicate. -/
theorem length_filter_map_stable {α : Type} (q : α → Bool) (f : α → α)
    (hf : ∀ a, q (f a) = q a) :
    ∀ l : List α, ((l.map f).filter q).length = (l.filter q).length := by
  intro l
  induction l with
  | nil => rfl
  | cons a t ih =>
    simp only [List.map_cons, List.filter_cons, hf a]
    cases h : q a
    · simpa using ih
    · simpa using ih

/-- `createOrderPayment` only writes the ledger: the order rows survive. -/
theorem orders_createOrderPayment (n : Notification) (s : DBState) :
    (createOrderPayment n s).orders = s.orders := by
  unfold createOrderPayment dbUpdatePaymentFromWebhook dbCreatePayment
  cases findPaymentByOrder s n.merchantReference <;> simp <;>
    repeat' first
      | rfl
      | split

/-- `createOrderPayment` only writes the ledger: the session rows survive. -/
theorem sessions_createOrderPayment (n : Notification) (s : DBState) :
    (createOrderPayment n s).sessions = s.sessions := by
  unfold createOrderPayment dbUpdatePaymentFromWebhook dbCreatePayment
  cases findPaymentByOrder s n.merchantReference <;> simp <;>
    repeat' first
      | rfl
      | split

/-- `updateOrderStatus` touches no ledger row. -/
theorem payments_updateOrderStatus (s : DBState) (id : String) (st : OrderStatus) :
    (updateOrderStatus s id st).payments = s.payments := rfl

/-- `cleanupSessionsForOrder` touches no order row. -/
theorem orders_cleanupSessionsForOrder (oid : String) (s : DBState) :
    (cleanupSessionsForOrder oid s).orders = s.orders := rfl

/-- `cleanupSessionsForOrder` touches no ledger row. -/
theorem payments_cleanupSessionsForOrder (oid : String) (s : DBState) :
    (cleanupSessionsForOrder oid s).payments = s.payments := rfl

/-- `refundLedgerWrite` touches no order row. -/
theorem orders_refundLedgerWrite (s : DBState) (oid : String) (n : Notification)
    (act : String) : (refundLedgerWrite s oid n act).orders = s.orders := rfl

/-- `findOrder` reads only the order rows. -/
theorem findOrder_congr {s s' : DBState} (h : s.orders = s'.orders) (id : String) :
    findOrder s id = findOrder s' id := by
  unfold findOrder
  rw [h]

/-- `findPaymentByOrder` reads only the ledger rows. -/
theorem findPaymentByOrder_congr {s s' : DBState} (h : s.payments = s'.payments)
    (oid : String) : findPaymentByOrder s oid = findPaymentByOrder s' oid := by
  unfold findPaymentByOrder
  rw [h]

/-- Looking an order up after a status write returns the same row with the
status rewritten when the id matches. -/
theorem findOrder_updateOrderStatus (s : DBState) (id id' : String) (st : OrderStatus) :
    findOrder (updateOrderStatus s id st) id' =
      (findOrder s id').map (fun o => if o.id == id then { o with status := st } else o) := by
  unfold findOrder updateOrderStatus
  exact find?_map_stable _ _
    (fun a => by by_cases h : (a.id == id) = true <;> simp [h]) _

/-- The ledger row `createOrderPayment` writes is keyed by the merchant
reference. -/
theorem paymentOfNotification_orderId (n : Notification) :
    (paymentOfNotification n).orderId = n.merchantReference := rfl

/-- The ledger row `createOrderPayment` writes carries the notification's
provider reference. -/
theorem paymentOfNotification_pspReference (n : Notification) :
    (paymentOfNotification n).pspReference = n.pspReference := rfl

/-- On a verified POST whose first item is an `AUTHORISATION` success, the
route runs the ledger upsert and then the success handler and answers 202. -/
theorem webhook_action_auth_true (validate : Notification → String → Bool)
    (key : String) (first : Notification) (rest : List Notification) (s : DBState)
    (hv : validate first key = true) (hec : first.eventCode = "AUTHORISATION")
    (hsucc : first.success = "true") :
    Webhook.action validate (some key) "POST" (WebhookBody.items first rest) s =
      (202, handlePaymentSuccess first (createOrderPayment first s)) := by
  simp [Webhook.action, hv, hec, hsucc]

/-- On a verified POST whose first item is an `AUTHORISATION` failure, the
route runs the ledger upsert and then the failure handler and answers 202. -/
theorem webhook_action_auth_false (validate : Notification → String → Bool)
    (key : String) (first : Notification) (rest : List Notification) (s : DBState)
    (hv : validate first key = true) (hec : first.eventCode = "AUTHORISATION")
    (hsucc : first.success = "false") :
    Webhook.action validate (some key) "POST" (WebhookBody.items first rest) s =
      (202, handlePaymentFailure first (createOrderPayment first s)) := by
  simp [Webhook.action, hv, hec, hsucc]

/-- On a verified POST whose first item is a `CANCEL_OR_REFUND` success, the
route runs the ledger upsert and then the refund handler and answers 202. -/
theorem webhook_action_cancel_true (validate : Notification → String → Bool)
    (key : String) (first : Notification) (rest : List Notification) (s : DBState)
    (hv : validate first key = true) (hec : first.eventCode = "CANCEL_OR_REFUND")
    (hsucc : first.success = "true") :
    Webhook.action validate (some key) "POST" (WebhookBody.items first rest) s =
      (202, handleCancelOrRefund first (createOrderPayment first s)) := by
  simp [Webhook.action, hv, hec, hsucc]

/-- Create path of the upsert: no row is keyed by the merchant reference,
the order exists and the provider reference is fresh, so the new row is
appended. -/
theorem createOrderPayment_create (n : Notification) (s : DBState)
    (hnone : findPaymentByOrder s n.merchantReference = none)
    (hord : (findOrder s n.merchantReference).isSome)
    (hpsp : findPaymentByPsp s n.pspReference = none) :
    (createOrderPayment n s).payments = s.payments ++ [paymentOfNotification n] := by
  unfold createOrderPayment dbCreatePayment
  rw [hnone]
  obtain ⟨o, ho⟩ := Option.isSome_iff_exists.mp hord
  simp [paymentOfNotification_orderId, paymentOfNotification_pspReference, hnone, ho, hpsp]

/-- Update path of the upsert: a row is keyed by the merchant reference and
no other row holds the notification's provider reference, so the row is
rewritten in place. -/
theorem createOrderPayment_update (n : Notification) (s : DBState)
    (hsome : (findPaymentByOrder s n.merchantReference).isSome)
    (hps : ∀ p ∈ s.payments, p.pspReference = n.pspReference →
      p.orderId = n.merchantReference) :
    (createOrderPayment n s).payments =
      s.payments.map
        (fun p => if p.orderId == n.merchantReference then paymentOfNotification n else p) := by
  unfold createOrderPayment dbUpdatePaymentFromWebhook
  obtain ⟨p0, hp0⟩ := Option.isSome_iff_exists.mp hsome
  have hany : s.payments.any
      (fun p => p.pspReference == n.pspReference && !(p.orderId == n.merchantReference)) =
        false := by
    rw [List.any_eq_false]
    intro p hp
    simp only [Bool.and_eq_true, beq_iff_eq, Bool.not_eq_true', beq_eq_false_iff_ne,
      not_and, ne_eq]
    intro h1 h2
    exact h2 (hps p hp h1)
  rw [hp0]
  simp [hp0, hany]

/-- An order id with no ledger row has ledger count zero. -/
theorem ledgerCount_eq_zero_of_find_none (s : DBState) (oid : String)
    (h : findPaymentByOrder s oid = none) : ledgerCount s oid = 0 := by
  unfold findPaymentByOrder at h
  rw [List.find?_eq_none] at h
  unfold ledgerCount
  simp [List.filter_eq_nil_iff.mpr h]

/-- Appending rows adds their matching count. -/
theorem ledgerCount_append (s : DBState) (l : List OrderPayment) (oid : String) :
    ledgerCount { s with payments := s.payments ++ l } oid =
      ledgerCount s oid + (l.filter (fun p => p.orderId == oid)).length := by
  unfold ledgerCount
  simp

/-- A list whose keys are pairwise distinct has at most one element with a
given key. -/
theorem length_filter_le_one_of_pairwise {α : Type} (key : α → String) (oid : String) :
    ∀ l : List α, l.Pairwise (fun p q => key p ≠ key q) →
      (l.filter (fun p => key p == oid)).length ≤ 1 := by
  intro l
  induction l with
  | nil => intro _; simp
  | cons a t ih =>
    intro h
    rw [List.pairwise_cons] at h
    obtain ⟨ha, ht⟩ := h
    by_cases hk : (key a == oid) = true
    · have hnil : t.filter (fun p => key p == oid) = [] := by
        rw [List.filter_eq_nil_iff]
        intro b hb
        have : key a ≠ key b := ha b hb
        simp only [beq_iff_eq] at hk ⊢
        rw [hk] at this
        exact fun hbeq => this hbeq.symm
      simp [List.filter_cons, hk, hnil]
    · simp only [List.filter_cons, hk]
      simpa using ih ht

/-- A found order row carries the looked-up id. -/
theorem findOrder_some_id {s : DBState} {id : String} {o : Order}
    (h : findOrder s id = some o) : o.id = id := by
  unfold findOrder at h
  have := List.find?_some h
  simpa using this

/-- A found ledger row carries the looked-up order id. -/
theorem findPaymentByOrder_some_orderId {s : DBState} {oid : String}
    {p : OrderPayment} (h : findPaymentByOrder s oid = some p) : p.orderId = oid := by
  unfold findPaymentByOrder at h
  have := List.find?_some h
  simpa using this

/-- A found ledger row is a member of the ledger. -/
theorem findPaymentByOrder_some_mem {s : DBState} {oid : String}
    {p : OrderPayment} (h : findPaymentByOrder s oid = some p) : p ∈ s.payments :=
  List.mem_of_find?_eq_some h

/-- When no ledger row is keyed by the order id and every row holding the
notification's provider reference would be keyed by it, no row holds that
provider reference at all. -/
theorem findPaymentByPsp_eq_none (n : Notification) (s : DBState)
    (hps : ∀ p ∈ s.payments, p.pspReference = n.pspReference →
      p.orderId = n.merchantReference)
    (hnone : findPaymentByOrder s n.merchantReference = none) :
    findPaymentByPsp s n.pspReference = none := by
  unfold findPaymentByOrder at hnone
  rw [List.find?_eq_none] at hnone
  unfold findPaymentByPsp
  rw [List.find?_eq_none]
  intro p hp hbeq
  have hpsp : p.pspReference = n.pspReference := by simpa using hbeq
  have := hps p hp hpsp
  exact hnone p hp (by simpa using this)

/-- `find?` over the in-place ledger rewrite returns the new row when the
new row matches and no unrelated row does. -/
theorem find?_map_update (ref : String) (pn : OrderPayment) (q : OrderPayment → Bool)
    (hq_pn : q pn = true) :
    ∀ l : List OrderPayment,
      (∀ p ∈ l, ¬((p.orderId == ref) = true) → q p = false) →
      (l.find? (fun p => p.orderId == ref)).isSome →
      (l.map (fun p => if p.orderId == ref then pn else p)).find? q = some pn := by
  intro l
  induction l with
  | nil => intro _ hex; simp at hex
  | cons a t ih =>
    intro hother hex
    by_cases ha : (a.orderId == ref) = true
    · simp only [List.map_cons, ha, if_true, List.find?_cons, hq_pn]
    · have hqa : q a = false := hother a (List.mem_cons_self a t) ha
      have hex' : (t.find? (fun p => p.orderId == ref)).isSome := by
        rw [List.find?_cons_of_neg] at hex
        · exact hex
        · simpa using ha
      rw [List.map_cons, if_neg ha, List.find?_cons_of_neg]
      · exact ih (fun p hp => hother p (List.mem_cons_of_mem a hp)) hex'
      · simp [hqa]

/-- The upsert leaves the looked-up ledger row equal to the notification's
column values, on the create path and on the update path alike. -/
theorem findPaymentByOrder_createOrderPayment (n : Notification) (s : DBState)
    (hord : (findOrder s n.merchantReference).isSome)
    (hps : ∀ p ∈ s.payments, p.pspReference = n.pspReference →
      p.orderId = n.merchantReference) :
    findPaymentByOrder (createOrderPayment n s) n.merchantReference =
      some (paymentOfNotification n) := by
  cases hrow : findPaymentByOrder s n.merchantReference with
  | none =>
    have hpsp := findPaymentByPsp_eq_none n s hps hrow
    have hpays := createOrderPayment_create n s hrow hord hpsp
    unfold findPaymentByOrder at hrow ⊢
    rw [hpays, List.find?_append, hrow]
    simp [paymentOfNotification_orderId]
  | some p0 =>
    have hpays := createOrderPayment_update n s (by rw [hrow]; rfl) hps
    unfold findPaymentByOrder
    rw [hpays]
    refine find?_map_update n.merchantReference (paymentOfNotification n) _
      (by simp [paymentOfNotification_orderId]) s.payments ?_ ?_
    · intro p _ hne
      simpa using fun h => absurd h (by simpa using hne)
    · unfold findPaymentByOrder at hrow
      rw [hrow]
      rfl

/-- A keyed lookup hit plus the unique index mean exactly one row. -/
theorem ledgerCount_eq_one_of_find_some (s : DBState) (oid : String)
    (hsome : (findPaymentByOrder s oid).isSome) (hwf : UniqueOrderIds s) :
    ledgerCount s oid = 1 := by
  obtain ⟨p, hp⟩ := Option.isSome_iff_exists.mp hsome
  refine le_antisymm
    (length_filter_le_one_of_pairwise OrderPayment.orderId oid s.payments hwf) ?_
  have hmem : p ∈ s.payments.filter (fun r => r.orderId == oid) := by
    rw [List.mem_filter]
    exact ⟨findPaymentByOrder_some_mem hp,
      by simpa using findPaymentByOrder_some_orderId hp⟩
  exact List.length_pos.mpr (fun hnil => by simp [hnil] at hmem)

/-- After the upsert the order's ledger count is exactly one. -/
theorem ledgerCount_createOrderPayment (n : Notification) (s : DBState)
    (hord : (findOrder s n.merchantReference).isSome)
    (hps : ∀ p ∈ s.payments, p.pspReference = n.pspReference →
      p.orderId = n.merchantReference)
    (hwf : UniqueOrderIds s) :
    ledgerCount (createOrderPayment n s) n.merchantReference = 1 := by
  cases hrow : findPaymentByOrder s n.merchantReference with
  | none =>
    have hpsp := findPaymentByPsp_eq_none n s hps hrow
    have hpays := createOrderPayment_create n s hrow hord hpsp
    unfold ledgerCount
    rw [hpays]
    rw [List.filter_append]
    have h0 : s.payments.filter (fun p => p.orderId == n.merchantReference) = [] := by
      rw [List.filter_eq_nil_iff]
      unfold findPaymentByOrder at hrow
      rw [List.find?_eq_none] at hrow
      exact hrow
    rw [h0]
    simp [paymentOfNotification_orderId]
  | some p0 =>
    have hpays := createOrderPayment_update n s (by rw [hrow]; rfl) hps
    unfold ledgerCount
    rw [hpays]
    have hstable : ∀ p : OrderPayment,
        ((if p.orderId == n.merchantReference then paymentOfNotification n else p).orderId ==
          n.merchantReference) = (p.orderId == n.merchantReference) := by
      intro p
      by_cases h : (p.orderId == n.merchantReference) = true <;>
        simp [h, paymentOfNotification_orderId]
    rw [length_filter_map_stable _ _ hstable]
    have := ledgerCount_eq_one_of_find_some s n.merchantReference (by rw [hrow]; rfl) hwf
    simpa [ledgerCount] using this

/-- `ledgerCount` reads only the ledger rows. -/
theorem ledgerCount_congr {s s' : DBState} (h : s.payments = s'.payments) (oid : String) :
    ledgerCount s oid = ledgerCount s' oid := by
  unfold ledgerCount
  rw [h]

/-- The no-collision side condition survives the upsert. -/
theorem hps_createOrderPayment (n : Notification) (s : DBState)
    (hord : (findOrder s n.merchantReference).isSome)
    (hps : ∀ p ∈ s.payments, p.pspReference = n.pspReference →
      p.orderId = n.merchantReference) :
    ∀ p ∈ (createOrderPayment n s).payments,
      p.pspReference = n.pspReference → p.orderId = n.merchantReference := by
  intro p hp hpsp
  cases hrow : findPaymentByOrder s n.merchantReference with
  | none =>
    have hpsp0 := findPaymentByPsp_eq_none n s hps hrow
    rw [createOrderPayment_create n s hrow hord hpsp0] at hp
    rcases List.mem_append.mp hp with hmem | hmem
    · exact hps p hmem hpsp
    · have hpeq : p = paymentOfNotification n := by simpa using hmem
      rw [hpeq]
      exact paymentOfNotification_orderId n
  | some p0 =>
    rw [createOrderPayment_update n s (by rw [hrow]; rfl) hps] at hp
    obtain ⟨a, ha, rfl⟩ := List.mem_map.mp hp
    by_cases hid : (a.orderId == n.merchantReference) = true
    · rw [if_pos hid]
      exact paymentOfNotification_orderId n
    · rw [if_neg hid] at hpsp ⊢
      exact hps a ha hpsp

/-- The `orderId` of a row is unchanged by the in-place ledger rewrite. -/
theorem update_row_orderId_stable (n : Notification) (a : OrderPayment) :
    (if (a.orderId == n.merchantReference) = true then paymentOfNotification n
      else a).orderId = a.orderId := by
  by_cases h : (a.orderId == n.merchantReference) = true
  · rw [if_pos h, paymentOfNotification_orderId]
    exact (beq_iff_eq.mp h).symm
  · rw [if_neg h]

/-- The unique `orderId` index survives the upsert. -/
theorem uniqueOrderIds_createOrderPayment (n : Notification) (s : DBState)
    (hord : (findOrder s n.merchantReference).isSome)
    (hps : ∀ p ∈ s.payments, p.pspReference = n.pspReference →
      p.orderId = n.merchantReference)
    (hwf : UniqueOrderIds s) : UniqueOrderIds (createOrderPayment n s) := by
  unfold UniqueOrderIds at hwf ⊢
  cases hrow : findPaymentByOrder s n.merchantReference with
  | none =>
    have hpsp0 := findPaymentByPsp_eq_none n s hps hrow
    rw [createOrderPayment_create n s hrow hord hpsp0, List.pairwise_append]
    refine ⟨hwf, List.pairwise_singleton _ _, ?_⟩
    intro a ha b hb
    have hbeq : b = paymentOfNotification n := by simpa using hb
    rw [hbeq, paymentOfNotification_orderId]
    unfold findPaymentByOrder at hrow
    rw [List.find?_eq_none] at hrow
    simpa using hrow a ha
  | some p0 =>
    rw [createOrderPayment_update n s (by rw [hrow]; rfl) hps, List.pairwise_map]
    exact hwf.imp (fun hab => by
      rw [update_row_orderId_stable, update_row_orderId_stable]
      exact hab)

/-- A status write on an existing order reads back with the new status. -/
theorem findOrder_updateOrderStatus_sets (s : DBState) (id : String) (st : OrderStatus)
    (hord : (findOrder s id).isSome) :
    ∃ o : Order, findOrder (updateOrderStatus s id st) id = some o ∧ o.status = st := by
  obtain ⟨o, ho⟩ := Option.isSome_iff_exists.mp hord
  rw [findOrder_updateOrderStatus, ho]
  have hid : o.id = id := findOrder_some_id ho
  exact ⟨{ o with status := st }, by simp [hid], rfl⟩

/-- The in-place refund rewrite of the ledger keeps every per-order row
count. -/
theorem ledgerCount_refundLedgerWrite (s : DBState) (oid : String) (n : Notification)
    (act : String) (oid' : String) :
    ledgerCount (refundLedgerWrite s oid n act) oid' = ledgerCount s oid' := by
  unfold ledgerCount refundLedgerWrite
  exact length_filter_map_stable _ _
    (fun a => by by_cases h : (a.orderId == oid) = true <;> simp [h]) _

/-! Claim theorems. -/

/-- C3 (confirmed): a POST webhook whose first notification item fails HMAC
verification against the configured server-held key is answered with 401,
and the state — order rows, ledger rows and stored sessions — is returned
entirely untouched: processing stops before any write. -/
theorem webhook_invalid_hmac_401_no_mutation
    (validate : Notification → String → Bool) (key : String)
    (first : Notification) (rest : List Notification) (s : DBState)
    (hfail : validate first key = false) :
    Webhook.action validate (some key) "POST" (WebhookBody.items first rest) s =
      (401, s) := by
  simp [Webhook.action, hfail]

/-- Witness for C3 at a concrete state and notification. -/
theorem webhook_invalid_hmac_401_no_mutation_witness :
    Webhook.action (fun _ _ => false) (some "secret") "POST"
      (WebhookBody.items (mkNotification "o1" "P1" "AUTHORISATION" "true" none) [])
      emptyDB = (401, emptyDB) :=
  webhook_invalid_hmac_401_no_mutation (fun _ _ => false) "secret"
    (mkNotification "o1" "P1" "AUTHORISATION" "true" none) [] emptyDB rfl

/-- C4 counterexample: a POST whose body fails JSON parsing is answered 202,
not the 400 the claim states (the parse error falls into the catch-all), and
a POST with notification items but no configured HMAC key is answered 500,
so the endpoint does return a 5xx status. -/
theorem webhook_status_codes_cex :
    (Webhook.action (fun _ _ => true) (some "secret") "POST"
        WebhookBody.unparseable emptyDB).1 = 202 ∧
    (Webhook.action (fun _ _ => true) none "POST"
        (WebhookBody.items (mkNotification "o1" "P1" "AUTHORISATION" "true" none) [])
        emptyDB).1 = 500 :=
  ⟨rfl, rfl⟩

/-- C4 (corrected): for every POST to the webhook endpoint the response code
follows `webhookStatusSpec`: 400 only when the body parses but holds no
notification items, 500 when the HMAC key is not configured, 401 when the
authenticity check fails, and 202 in every other case — a body that fails
JSON parsing included, since the parse error is swallowed by the catch-all. -/
theorem webhook_status_codes (validate : Notification → String → Bool)
    (hmacKey : Option String) (body : WebhookBody) (s : DBState) :
    (Webhook.action validate hmacKey "POST" body s).1 =
      webhookStatusSpec validate hmacKey body := by
  unfold Webhook.action webhookStatusSpec
  cases body with
  | unparseable => simp
  | noItems => simp
  | items first rest =>
    cases hmacKey with
    | none => simp
    | some key => by_cases hv : validate first key = true <;> simp [hv]

/-- The cart `reduce` equals the sum of unit price times quantity. -/
theorem calculateCartTotal_eq_sum (items : List CartItem) :
    calculateCartTotal items =
      (items.map (fun it => it.product.price * (it.quantity : ℚ))).sum := by
  have aux : ∀ (l : List CartItem) (a : ℚ),
      l.foldl (fun total it => total + it.product.price * (it.quantity : ℚ)) a =
        a + (l.map (fun it => it.product.price * (it.quantity : ℚ))).sum := by
    intro l
    induction l with
    | nil => intro a; simp
    | cons x t ih =>
      intro a
      simp only [List.foldl_cons, List.map_cons, List.sum_cons]
      rw [ih, add_assoc]
  simpa [calculateCartTotal] using aux items 0

/-- C8 counterexample: on the one-item cart with unit price 0.55 the code
computes tax `0.55 * 0.08 = 0.044`, which is not the claimed two-decimal
rounding `round2(0.55 * 0.08) = 0.04` — the code never rounds the tax. -/
theorem checkout_amount_cex :
    cartTax [{ product := { id := "p1", name := "Item", price := 11 / 20 }, quantity := 1 }] ≠
      specRound2
        (calculateCartTotal
          [{ product := { id := "p1", name := "Item", price := 11 / 20 }, quantity := 1 }] *
          (8 / 100)) := by
  simp only [cartTax, calculateCartTotal, specRound2, jsRound, List.foldl]
  norm_num

/-- C8 (corrected): for every cart the checkout-session request computes
`subtotal` as the sum of unit price times quantity, `tax = subtotal * 0.08`
with no rounding to two decimals, `total = subtotal + tax`, and the amount
sent to the provider equals `round(total * 100)` minor units with half-up
rounding — equivalently `round(subtotal * 1.08 * 100)`. -/
theorem checkout_amount_correct (items : List CartItem) (orderId : String) :
    calculateCartTotal items =
        (items.map (fun it => it.product.price * (it.quantity : ℚ))).sum ∧
    cartTax items = calculateCartTotal items * (8 / 100) ∧
    cartTotal items = calculateCartTotal items + cartTax items ∧
    (createCheckoutSessionFromCart items orderId).amountValue =
        jsRound (cartTotal items * 100) ∧
    (createCheckoutSessionFromCart items orderId).amountValue =
        jsRound ((items.map (fun it => it.product.price * (it.quantity : ℚ))).sum *
          (108 / 100) * 100) := by
  refine ⟨calculateCartTotal_eq_sum items, rfl, rfl, rfl, ?_⟩
  show jsRound (cartTotal items * 100) = _
  rw [← calculateCartTotal_eq_sum items]
  unfold cartTotal cartTax
  ring_nf

/-- `handlePaymentSuccess` touches no ledger row. -/
theorem payments_handlePaymentSuccess (n : Notification) (s : DBState) :
    (handlePaymentSuccess n s).payments = s.payments := by
  unfold handlePaymentSuccess
  cases findOrder s n.merchantReference <;> rfl

/-- After the successful-payment dispatch for an existing order, the order
reads back with status SUCCESSFUL, whatever its status was before. -/
theorem handlePaymentSuccess_sets_successful (n : Notification) (s : DBState)
    (hord : (findOrder s n.merchantReference).isSome) :
    ∃ o : Order,
      findOrder (handlePaymentSuccess n s) n.merchantReference = some o ∧
      o.status = OrderStatus.SUCCESSFUL := by
  obtain ⟨o, ho⟩ := Option.isSome_iff_exists.mp hord
  unfold handlePaymentSuccess
  rw [ho]
  rw [findOrder_congr (orders_cleanupSessionsForOrder _ _) n.merchantReference,
    findOrder_updateOrderStatus, ho]
  have hid : o.id = n.merchantReference := findOrder_some_id ho
  exact ⟨{ o with status := OrderStatus.SUCCESSFUL }, by simp [hid], rfl⟩

/-- C1 counterexample: the order is already in the terminal status REFUNDED,
yet processing a verified `AUTHORISATION`/`success=true` webhook event for it
rewrites the status to SUCCESSFUL — the reconciler does write past a
terminal status instead of leaving it unchanged. -/
theorem terminal_status_guard_cex :
    findOrder
      (Webhook.action (fun _ _ => true) (some "secret") "POST"
        (WebhookBody.items (mkNotification "o1" "PSP1" "AUTHORISATION" "true" none) [])
        { orders := [mkOrder "o1" "u1" OrderStatus.REFUNDED],
          payments := [], sessions := [] }).2
      "o1" = some (mkOrder "o1" "u1" OrderStatus.SUCCESSFUL) := by
  rfl

/-- C1 (corrected): the webhook handlers carry no terminal-status guard: a
verified `AUTHORISATION`/`success=true` event for an existing order rewrites
its status to SUCCESSFUL whatever the current status is — including the
terminal statuses REFUNDED and CANCELLED.  The transition table of the claim
describes normal operation only; nothing refuses to write past a terminal
status. -/
theorem authorisation_true_overwrites_status
    (validate : Notification → String → Bool) (key : String) (n : Notification)
    (rest : List Notification) (s : DBState)
    (hv : validate n key = true) (hec : n.eventCode = "AUTHORISATION")
    (hsucc : n.success = "true")
    (hord : (findOrder s n.merchantReference).isSome) :
    ∃ o : Order,
      findOrder
        (Webhook.action validate (some key) "POST" (WebhookBody.items n rest) s).2
        n.merchantReference = some o ∧
      o.status = OrderStatus.SUCCESSFUL := by
  rw [webhook_action_auth_true validate key n rest s hv hec hsucc]
  refine handlePaymentSuccess_sets_successful n (createOrderPayment n s) ?_
  rw [findOrder_congr (orders_createOrderPayment n s)]
  exact hord

/-- Witness for C1's amended theorem: a REFUNDED order is overwritten to
SUCCESSFUL by a verified authorisation event. -/
theorem authorisation_true_overwrites_status_witness :
    ∃ o : Order,
      findOrder
        (Webhook.action (fun _ _ => true) (some "secret") "POST"
          (WebhookBody.items (mkNotification "o1" "PSP1" "AUTHORISATION" "true" none) [])
          { orders := [mkOrder "o1" "u1" OrderStatus.REFUNDED],
            payments := [], sessions := [] }).2
        (mkNotification "o1" "PSP1" "AUTHORISATION" "true" none).merchantReference =
          some o ∧
      o.status = OrderStatus.SUCCESSFUL :=
  authorisation_true_overwrites_status (fun _ _ => true) "secret"
    (mkNotification "o1" "PSP1" "AUTHORISATION" "true" none) []
    { orders := [mkOrder "o1" "u1" OrderStatus.REFUNDED],
      payments := [], sessions := [] }
    rfl rfl rfl (by decide)

/-- C7 (confirmed): a refund request by the order's owner on an order whose
status is not SUCCESSFUL is rejected with a 400-class response, the state is
unchanged and no provider refund call is issued; when the status is
SUCCESSFUL, a ledger row exists and the provider call goes through, the
order transitions to REFUND IN PROGRESS in the same request and the route
answers 200 — the provider call is issued in that case. -/
theorem refund_requires_successful (userId oid : String) (refundOk : Bool)
    (s : DBState) (order : Order) (hne : oid ≠ "")
    (hfind : s.orders.find? (fun o => o.id == oid && o.userId == userId) = some order) :
    (order.status ≠ OrderStatus.SUCCESSFUL →
      400 ≤ (Refund.action userId (some oid) refundOk s).status ∧
      (Refund.action userId (some oid) refundOk s).status < 500 ∧
      (Refund.action userId (some oid) refundOk s).state = s ∧
      (Refund.action userId (some oid) refundOk s).refundCalled = false) ∧
    (order.status = OrderStatus.SUCCESSFUL →
      (findPaymentByOrder s oid).isSome →
      Refund.action userId (some oid) true s =
        ⟨200, updateOrderStatus s oid OrderStatus.REFUND_IN_PROGRESS, true⟩) := by
  constructor
  · intro hst
    cases hpay : findPaymentByOrder s oid with
    | none =>
      simp only [Refund.action, hfind, hpay, hne]
      norm_num
    | some p =>
      simp only [Refund.action, hfind, hpay, hne, if_pos hst]
      norm_num
  · intro hst hpay
    obtain ⟨p, hp⟩ := Option.isSome_iff_exists.mp hpay
    simp [Refund.action, hfind, hp, hne, hst]

/-- Witness for C7: the PENDING order `o2` is rejected with 400 and nothing
changes, and the SUCCESSFUL order `o1` with a ledger row moves to
REFUND IN PROGRESS with a 200 response. -/
theorem refund_requires_successful_witness :
    (400 ≤ (Refund.action "u1" (some "o2") false
        { orders := [mkOrder "o2" "u1" OrderStatus.PENDING],
          payments :=
            [paymentOfNotification (mkNotification "o2" "PSPB" "AUTHORISATION" "true" none)],
          sessions := [] }).status ∧
      (Refund.action "u1" (some "o2") false
        { orders := [mkOrder "o2" "u1" OrderStatus.PENDING],
          payments :=
            [paymentOfNotification (mkNotification "o2" "PSPB" "AUTHORISATION" "true" none)],
          sessions := [] }).status < 500 ∧
      (Refund.action "u1" (some "o2") false
        { orders := [mkOrder "o2" "u1" OrderStatus.PENDING],
          payments :=
            [paymentOfNotification (mkNotification "o2" "PSPB" "AUTHORISATION" "true" none)],
          sessions := [] }).state =
        { orders := [mkOrder "o2" "u1" OrderStatus.PENDING],
          payments :=
            [paymentOfNotification (mkNotification "o2" "PSPB" "AUTHORISATION" "true" none)],
          sessions := [] } ∧
      (Refund.action "u1" (some "o2") false
        { orders := [mkOrder "o2" "u1" OrderStatus.PENDING],
          payments :=
            [paymentOfNotification (mkNotification "o2" "PSPB" "AUTHORISATION" "true" none)],
          sessions := [] }).refundCalled = false) ∧
    Refund.action "u1" (some "o1") true
        { orders := [mkOrder "o1" "u1" OrderStatus.SUCCESSFUL],
          payments :=
            [paymentOfNotification (mkNotification "o1" "PSPA" "AUTHORISATION" "true" none)],
          sessions := [] } =
      ⟨200,
        updateOrderStatus
          { orders := [mkOrder "o1" "u1" OrderStatus.SUCCESSFUL],
            payments :=
              [paymentOfNotification (mkNotification "o1" "PSPA" "AUTHORISATION" "true" none)],
            sessions := [] }
          "o1" OrderStatus.REFUND_IN_PROGRESS, true⟩ :=
  ⟨(refund_requires_successful "u1" "o2" false
      { orders := [mkOrder "o2" "u1" OrderStatus.PENDING],
        payments :=
          [paymentOfNotification (mkNotification "o2" "PSPB" "AUTHORISATION" "true" none)],
        sessions := [] }
      (mkOrder "o2" "u1" OrderStatus.PENDING) (by decide) rfl).1 (by decide),
    (refund_requires_successful "u1" "o1" true
      { orders := [mkOrder "o1" "u1" OrderStatus.SUCCESSFUL],
        payments :=
          [paymentOfNotification (mkNotification "o1" "PSPA" "AUTHORISATION" "true" none)],
        sessions := [] }
      (mkOrder "o1" "u1" OrderStatus.SUCCESSFUL) (by decide) rfl).2 rfl (by rfl)⟩

/-- C9 (confirmed): a verified `AUTHORISATION`/`success=false` event whose
merchant reference matches no existing order is a no-op: the create of the
ledger row throws on the missing order relation and is swallowed, the
failure handler drops the event, no table changes, and the route still
acknowledges with 202. -/
theorem unknown_order_failure_noop (validate : Notification → String → Bool)
    (key : String) (n : Notification) (rest : List Notification) (s : DBState)
    (hv : validate n key = true) (hec : n.eventCode = "AUTHORISATION")
    (hsucc : n.success = "false")
    (hord : findOrder s n.merchantReference = none)
    (hfk : PaymentsHaveOrders s) :
    Webhook.action validate (some key) "POST" (WebhookBody.items n rest) s =
      (202, s) := by
  rw [webhook_action_auth_false validate key n rest s hv hec hsucc]
  have hpay : findPaymentByOrder s n.merchantReference = none := by
    unfold findPaymentByOrder
    rw [List.find?_eq_none]
    intro p hp hbeq
    have hpid : p.orderId = n.merchantReference := by simpa using hbeq
    have h2 := hfk p hp
    rw [hpid, hord] at h2
    simp at h2
  have hcreate : createOrderPayment n s = s := by
    unfold createOrderPayment dbCreatePayment
    rw [hpay]
    simp [paymentOfNotification_orderId, hord]
  rw [hcreate]
  unfold handlePaymentFailure
  rw [hord]

/-- Witness for C9: an unknown order id on the empty database. -/
theorem unknown_order_failure_noop_witness :
    Webhook.action (fun _ _ => true) (some "secret") "POST"
      (WebhookBody.items (mkNotification "o1" "P1" "AUTHORISATION" "false" none) [])
      emptyDB = (202, emptyDB) :=
  unknown_order_failure_noop (fun _ _ => true) "secret"
    (mkNotification "o1" "P1" "AUTHORISATION" "false" none) [] emptyDB
    rfl rfl rfl rfl (by intro p hp; simp [emptyDB] at hp)

/-- C10 (confirmed): a ledger-upsert failure is caught inside
`createOrderPayment` and never rethrown: when the create throws because a
different order's row already holds the notification's provider reference,
the status dispatch still runs and the route still acknowledges with 202 —
so the order reaches SUCCESSFUL while no ledger row exists for it. -/
theorem ledger_failure_still_dispatches (validate : Notification → String → Bool)
    (key : String) (n : Notification) (rest : List Notification) (s : DBState)
    (hv : validate n key = true) (hec : n.eventCode = "AUTHORISATION")
    (hsucc : n.success = "true")
    (hord : (findOrder s n.merchantReference).isSome)
    (hpay : findPaymentByOrder s n.merchantReference = none)
    (hcol : (findPaymentByPsp s n.pspReference).isSome) :
    (Webhook.action validate (some key) "POST" (WebhookBody.items n rest) s).1 = 202 ∧
    findPaymentByOrder
      (Webhook.action validate (some key) "POST" (WebhookBody.items n rest) s).2
      n.merchantReference = none ∧
    ∃ o : Order,
      findOrder
        (Webhook.action validate (some key) "POST" (WebhookBody.items n rest) s).2
        n.merchantReference = some o ∧
      o.status = OrderStatus.SUCCESSFUL := by
  rw [webhook_action_auth_true validate key n rest s hv hec hsucc]
  have hcreate : createOrderPayment n s = s := by
    unfold createOrderPayment dbCreatePayment
    rw [hpay]
    obtain ⟨o, ho⟩ := Option.isSome_iff_exists.mp hord
    simp [paymentOfNotification_orderId, paymentOfNotification_pspReference, ho, hpay, hcol]
  rw [hcreate]
  refine ⟨rfl, ?_, handlePaymentSuccess_sets_successful n s hord⟩
  rw [findPaymentByOrder_congr (payments_handlePaymentSuccess n s)]
  exact hpay

/-- Witness for C10: order `o1` exists with no ledger row, another order's
row already holds provider reference `P1`, and the incoming authorisation
for `o1` carries `P1`: the route answers 202, `o1` becomes SUCCESSFUL and
still has no ledger row. -/
theorem ledger_failure_still_dispatches_witness :
    (Webhook.action (fun _ _ => true) (some "secret") "POST"
        (WebhookBody.items (mkNotification "o1" "P1" "AUTHORISATION" "true" none) [])
        { orders := [mkOrder "o1" "u1" OrderStatus.PENDING,
            mkOrder "o2" "u1" OrderStatus.SUCCESSFUL],
          payments :=
            [paymentOfNotification (mkNotification "o2" "P1" "AUTHORISATION" "true" none)],
          sessions := [] }).1 = 202 ∧
    findPaymentByOrder
      (Webhook.action (fun _ _ => true) (some "secret") "POST"
        (WebhookBody.items (mkNotification "o1" "P1" "AUTHORISATION" "true" none) [])
        { orders := [mkOrder "o1" "u1" OrderStatus.PENDING,
            mkOrder "o2" "u1" OrderStatus.SUCCESSFUL],
          payments :=
            [paymentOfNotification (mkNotification "o2" "P1" "AUTHORISATION" "true" none)],
          sessions := [] }).2
      (mkNotification "o1" "P1" "AUTHORISATION" "true" none).merchantReference = none ∧
    ∃ o : Order,
      findOrder
        (Webhook.action (fun _ _ => true) (some "secret") "POST"
          (WebhookBody.items (mkNotification "o1" "P1" "AUTHORISATION" "true" none) [])
          { orders := [mkOrder "o1" "u1" OrderStatus.PENDING,
              mkOrder "o2" "u1" OrderStatus.SUCCESSFUL],
            payments :=
              [paymentOfNotification (mkNotification "o2" "P1" "AUTHORISATION" "true" none)],
            sessions := [] }).2
        (mkNotification "o1" "P1" "AUTHORISATION" "true" none).merchantReference = some o ∧
      o.status = OrderStatus.SUCCESSFUL :=
  ledger_failure_still_dispatches (fun _ _ => true) "secret"
    (mkNotification "o1" "P1" "AUTHORISATION" "true" none) []
    { orders := [mkOrder "o1" "u1" OrderStatus.PENDING,
        mkOrder "o2" "u1" OrderStatus.SUCCESSFUL],
      payments :=
        [paymentOfNotification (mkNotification "o2" "P1" "AUTHORISATION" "true" none)],
      sessions := [] }
    rfl rfl rfl (by decide) (by decide) (by decide)

/-- C5 counterexample: a verified batch carries two recognized
`AUTHORISATION`/`success=true` items for the existing orders `o1` and `o2`,
yet after processing only `o1` has a ledger row: the second item's order has
none, because the route reads only `notificationItems[0]`. -/
theorem batch_upsert_cex :
    findPaymentByOrder
      (Webhook.action (fun _ _ => true) (some "secret") "POST"
        (WebhookBody.items (mkNotification "o1" "P1" "AUTHORISATION" "true" none)
          [mkNotification "o2" "P2" "AUTHORISATION" "true" none])
        { orders := [mkOrder "o1" "u1" OrderStatus.PENDING,
            mkOrder "o2" "u2" OrderStatus.PENDING],
          payments := [], sessions := [] }).2
      "o2" = none ∧
    findPaymentByOrder
      (Webhook.action (fun _ _ => true) (some "secret") "POST"
        (WebhookBody.items (mkNotification "o1" "P1" "AUTHORISATION" "true" none)
          [mkNotification "o2" "P2" "AUTHORISATION" "true" none])
        { orders := [mkOrder "o1" "u1" OrderStatus.PENDING,
            mkOrder "o2" "u2" OrderStatus.PENDING],
          payments := [], sessions := [] }).2
      "o1" = some (paymentOfNotification (mkNotification "o1" "P1" "AUTHORISATION" "true" none)) :=
  ⟨rfl, rfl⟩

/-- C5 (corrected): only the first notification item of a verified batch is
processed — the route's outcome does not depend on the items after the
first at all — and the first item, whatever its event code, has a ledger
row upserted keyed by its merchant reference carrying the event's payment
method, provider reference, amount converted from minor units by dividing
by 100, success flag and raw payload (when the write violates no storage
constraint). -/
theorem only_first_item_upserted (validate : Notification → String → Bool)
    (key : String) (n : Notification) (rest rest' : List Notification) (s : DBState)
    (hord : (findOrder s n.merchantReference).isSome)
    (hps : ∀ p ∈ s.payments, p.pspReference = n.pspReference →
      p.orderId = n.merchantReference) :
    Webhook.action validate (some key) "POST" (WebhookBody.items n rest) s =
      Webhook.action validate (some key) "POST" (WebhookBody.items n rest') s ∧
    findPaymentByOrder (createOrderPayment n s) n.merchantReference =
      some (paymentOfNotification n) ∧
    (paymentOfNotification n).paymentMethod = n.paymentMethod ∧
    (paymentOfNotification n).pspReference = n.pspReference ∧
    (paymentOfNotification n).amount = amountMajor n.amount ∧
    (paymentOfNotification n).success = (n.success == "true") ∧
    (paymentOfNotification n).rawWebhookData = n :=
  ⟨rfl, findPaymentByOrder_createOrderPayment n s hord hps, rfl, rfl, rfl, rfl, rfl⟩

/-- Witness for C5's amended theorem on a concrete order and batch. -/
theorem only_first_item_upserted_witness :
    Webhook.action (fun _ _ => true) (some "secret") "POST"
        (WebhookBody.items (mkNotification "o1" "P1" "AUTHORISATION" "true" none)
          [mkNotification "o2" "P2" "AUTHORISATION" "true" none])
        { orders := [mkOrder "o1" "u1" OrderStatus.PENDING],
          payments := [], sessions := [] } =
      Webhook.action (fun _ _ => true) (some "secret") "POST"
        (WebhookBody.items (mkNotification "o1" "P1" "AUTHORISATION" "true" none) [])
        { orders := [mkOrder "o1" "u1" OrderStatus.PENDING],
          payments := [], sessions := [] } ∧
    findPaymentByOrder
      (createOrderPayment (mkNotification "o1" "P1" "AUTHORISATION" "true" none)
        { orders := [mkOrder "o1" "u1" OrderStatus.PENDING],
          payments := [], sessions := [] })
      (mkNotification "o1" "P1" "AUTHORISATION" "true" none).merchantReference =
      some (paymentOfNotification (mkNotification "o1" "P1" "AUTHORISATION" "true" none)) ∧
    (paymentOfNotification (mkNotification "o1" "P1" "AUTHORISATION" "true" none)).paymentMethod =
      (mkNotification "o1" "P1" "AUTHORISATION" "true" none).paymentMethod ∧
    (paymentOfNotification (mkNotification "o1" "P1" "AUTHORISATION" "true" none)).pspReference =
      (mkNotification "o1" "P1" "AUTHORISATION" "true" none).pspReference ∧
    (paymentOfNotification (mkNotification "o1" "P1" "AUTHORISATION" "true" none)).amount =
      amountMajor (mkNotification "o1" "P1" "AUTHORISATION" "true" none).amount ∧
    (paymentOfNotification (mkNotification "o1" "P1" "AUTHORISATION" "true" none)).success =
      ((mkNotification "o1" "P1" "AUTHORISATION" "true" none).success == "true") ∧
    (paymentOfNotification (mkNotification "o1" "P1" "AUTHORISATION" "true" none)).rawWebhookData =
      mkNotification "o1" "P1" "AUTHORISATION" "true" none :=
  only_first_item_upserted (fun _ _ => true) "secret"
    (mkNotification "o1" "P1" "AUTHORISATION" "true" none)
    [mkNotification "o2" "P2" "AUTHORISATION" "true" none] []
    { orders := [mkOrder "o1" "u1" OrderStatus.PENDING],
      payments := [], sessions := [] }
    (by decide) (fun p hp => absurd hp (List.not_mem_nil p))

/-- C2 (confirmed): processing the same verified
`AUTHORISATION`/`success=true` event twice for an existing order is
idempotent: after the second processing the order's status is SUCCESSFUL and
the ledger holds exactly one row for that order — the ledger write is an
upsert keyed by the order id (merchant reference) and never appends a second
row for the same order. -/
theorem authorisation_idempotent (validate : Notification → String → Bool)
    (key : String) (n : Notification) (rest : List Notification) (s : DBState)
    (hv : validate n key = true) (hec : n.eventCode = "AUTHORISATION")
    (hsucc : n.success = "true")
    (hord : (findOrder s n.merchantReference).isSome)
    (hps : ∀ p ∈ s.payments, p.pspReference = n.pspReference →
      p.orderId = n.merchantReference)
    (hwf : UniqueOrderIds s) :
    (∃ o : Order,
      findOrder
        (Webhook.action validate (some key) "POST" (WebhookBody.items n rest)
          (Webhook.action validate (some key) "POST" (WebhookBody.items n rest) s).2).2
        n.merchantReference = some o ∧
      o.status = OrderStatus.SUCCESSFUL) ∧
    ledgerCount
      (Webhook.action validate (some key) "POST" (WebhookBody.items n rest)
        (Webhook.action validate (some key) "POST" (WebhookBody.items n rest) s).2).2
      n.merchantReference = 1 := by
  have h1 : (Webhook.action validate (some key) "POST" (WebhookBody.items n rest) s).2 =
      handlePaymentSuccess n (createOrderPayment n s) := by
    rw [webhook_action_auth_true validate key n rest s hv hec hsucc]
  rw [h1]
  have hord0 : (findOrder (createOrderPayment n s) n.merchantReference).isSome := by
    rw [findOrder_congr (orders_createOrderPayment n s)]
    exact hord
  have hpay1 : (handlePaymentSuccess n (createOrderPayment n s)).payments =
      (createOrderPayment n s).payments := payments_handlePaymentSuccess n _
  have hord1 : (findOrder (handlePaymentSuccess n (createOrderPayment n s))
      n.merchantReference).isSome := by
    obtain ⟨o, ho, _⟩ := handlePaymentSuccess_sets_successful n (createOrderPayment n s) hord0
    rw [ho]
    rfl
  have hps0 := hps_createOrderPayment n s hord hps
  have hps1 : ∀ p ∈ (handlePaymentSuccess n (createOrderPayment n s)).payments,
      p.pspReference = n.pspReference → p.orderId = n.merchantReference := by
    rw [hpay1]
    exact hps0
  have hwf0 := uniqueOrderIds_createOrderPayment n s hord hps hwf
  have hwf1 : UniqueOrderIds (handlePaymentSuccess n (createOrderPayment n s)) := by
    unfold UniqueOrderIds
    rw [hpay1]
    exact hwf0
  have h2 : (Webhook.action validate (some key) "POST" (WebhookBody.items n rest)
      (handlePaymentSuccess n (createOrderPayment n s))).2 =
      handlePaymentSuccess n
        (createOrderPayment n (handlePaymentSuccess n (createOrderPayment n s))) := by
    rw [webhook_action_auth_true validate key n rest _ hv hec hsucc]
  rw [h2]
  constructor
  · refine handlePaymentSuccess_sets_successful n
      (createOrderPayment n (handlePaymentSuccess n (createOrderPayment n s))) ?_
    rw [findOrder_congr (orders_createOrderPayment n _)]
    exact hord1
  · rw [ledgerCount_congr (payments_handlePaymentSuccess n
      (createOrderPayment n (handlePaymentSuccess n (createOrderPayment n s))))]
    exact ledgerCount_createOrderPayment n _ hord1 hps1 hwf1

/-- Witness for C2 on a concrete PENDING order processed twice. -/
theorem authorisation_idempotent_witness :
    (∃ o : Order,
      findOrder
        (Webhook.action (fun _ _ => true) (some "secret") "POST"
          (WebhookBody.items (mkNotification "o1" "P1" "AUTHORISATION" "true" none) [])
          (Webhook.action (fun _ _ => true) (some "secret") "POST"
            (WebhookBody.items (mkNotification "o1" "P1" "AUTHORISATION" "true" none) [])
            { orders := [mkOrder "o1" "u1" OrderStatus.PENDING],
              payments := [], sessions := [] }).2).2
        (mkNotification "o1" "P1" "AUTHORISATION" "true" none).merchantReference = some o ∧
      o.status = OrderStatus.SUCCESSFUL) ∧
    ledgerCount
      (Webhook.action (fun _ _ => true) (some "secret") "POST"
        (WebhookBody.items (mkNotification "o1" "P1" "AUTHORISATION" "true" none) [])
        (Webhook.action (fun _ _ => true) (some "secret") "POST"
          (WebhookBody.items (mkNotification "o1" "P1" "AUTHORISATION" "true" none) [])
          { orders := [mkOrder "o1" "u1" OrderStatus.PENDING],
            payments := [], sessions := [] }).2).2
      (mkNotification "o1" "P1" "AUTHORISATION" "true" none).merchantReference = 1 :=
  authorisation_idempotent (fun _ _ => true) "secret"
    (mkNotification "o1" "P1" "AUTHORISATION" "true" none) []
    { orders := [mkOrder "o1" "u1" OrderStatus.PENDING],
      payments := [], sessions := [] }
    rfl rfl rfl (by decide) (fun p hp => absurd hp (List.not_mem_nil p))
    List.Pairwise.nil

/-- C6 (confirmed): for an order whose single ledger row was written by a
prior AUTHORISATION event, a verified `CANCEL_OR_REFUND`/`success=true`
notification correlated to that payment reaches the original order through
the ledger lookup by the refund's own provider reference (which the
preceding upsert has just written into the row), sets the order's status to
REFUNDED when the provider metadata action is `refund` or absent and to
CANCELLED when it is `cancel`, and rewrites the existing ledger row in
place, so the order's ledger row count stays exactly 1. -/
theorem cancel_or_refund_refunds (validate : Notification → String → Bool)
    (key : String) (n : Notification) (rest : List Notification) (s : DBState)
    (p0 : OrderPayment)
    (hv : validate n key = true) (hec : n.eventCode = "CANCEL_OR_REFUND")
    (hsucc : n.success = "true")
    (hord : (findOrder s n.merchantReference).isSome)
    (hrow : findPaymentByOrder s n.merchantReference = some p0)
    (hauth : p0.eventCode = "AUTHORISATION")
    (hps : ∀ p ∈ s.payments, p.pspReference = n.pspReference →
      p.orderId = n.merchantReference)
    (hwf : UniqueOrderIds s)
    (hact : n.modificationAction = none ∨ n.modificationAction = some "refund" ∨
      n.modificationAction = some "cancel") :
    (∃ o : Order,
      findOrder
        (Webhook.action validate (some key) "POST" (WebhookBody.items n rest) s).2
        n.merchantReference = some o ∧
      o.status = (if n.modificationAction = some "cancel" then OrderStatus.CANCELLED
        else OrderStatus.REFUNDED)) ∧
    ledgerCount
      (Webhook.action validate (some key) "POST" (WebhookBody.items n rest) s).2
      n.merchantReference = 1 := by
  have h1 : (Webhook.action validate (some key) "POST" (WebhookBody.items n rest) s).2 =
      handleCancelOrRefund n (createOrderPayment n s) := by
    rw [webhook_action_cancel_true validate key n rest s hv hec hsucc]
  rw [h1]
  have hord0 : (findOrder (createOrderPayment n s) n.merchantReference).isSome := by
    rw [findOrder_congr (orders_createOrderPayment n s)]
    exact hord
  have hfindpsp : findPaymentByPsp (createOrderPayment n s) n.pspReference =
      some (paymentOfNotification n) := by
    unfold findPaymentByPsp
    rw [show (createOrderPayment n s).payments = _ from
      createOrderPayment_update n s (by rw [hrow]; rfl) hps]
    refine find?_map_update n.merchantReference (paymentOfNotification n) _
      (by simp [paymentOfNotification_pspReference]) s.payments ?_ ?_
    · intro p hp hne
      by_cases hq : (p.pspReference == n.pspReference) = true
      · exact absurd (hps p hp (by simpa using hq)) (by simpa using hne)
      · simpa using hq
    · unfold findPaymentByOrder at hrow
      rw [hrow]
      rfl
  have hupd : handleCancelOrRefund n (createOrderPayment n s) =
      refundLedgerWrite
        (updateOrderStatus (createOrderPayment n s) n.merchantReference
          (if (modAction n == "refund") = true then OrderStatus.REFUNDED
            else OrderStatus.CANCELLED))
        n.merchantReference n (modAction n) := by
    simp only [handleCancelOrRefund, hfindpsp, paymentOfNotification_orderId, hsucc,
      beq_self_eq_true, if_true, hord0]
  rw [hupd]
  constructor
  · rw [findOrder_congr (orders_refundLedgerWrite _ _ _ _) n.merchantReference]
    obtain ⟨o, ho, hst⟩ :=
      findOrder_updateOrderStatus_sets (createOrderPayment n s) n.merchantReference
        (if (modAction n == "refund") = true then OrderStatus.REFUNDED
          else OrderStatus.CANCELLED) hord0
    refine ⟨o, ho, ?_⟩
    rw [hst]
    rcases hact with h | h | h <;> simp only [modAction, h] <;> decide
  · rw [ledgerCount_refundLedgerWrite]
    have hup : (updateOrderStatus (createOrderPayment n s) n.merchantReference
        (if (modAction n == "refund") = true then OrderStatus.REFUNDED
          else OrderStatus.CANCELLED)).payments = (createOrderPayment n s).payments :=
      payments_updateOrderStatus _ _ _
    rw [ledgerCount_congr hup]
    exact ledgerCount_createOrderPayment n s hord hps hwf

/-- Witness for C6: order `o1` is SUCCESSFUL with one ledger row written by
the AUTHORISATION event with provider reference `PSPA`; the refund event
carries provider reference `PSPR` and no action metadata, so `o1` ends
REFUNDED with exactly one ledger row. -/
theorem cancel_or_refund_refunds_witness :
    (∃ o : Order,
      findOrder
        (Webhook.action (fun _ _ => true) (some "secret") "POST"
          (WebhookBody.items (mkNotification "o1" "PSPR" "CANCEL_OR_REFUND" "true" none) [])
          { orders := [mkOrder "o1" "u1" OrderStatus.SUCCESSFUL],
            payments :=
              [paymentOfNotification (mkNotification "o1" "PSPA" "AUTHORISATION" "true" none)],
            sessions := [] }).2
        (mkNotification "o1" "PSPR" "CANCEL_OR_REFUND" "true" none).merchantReference =
          some o ∧
      o.status =
        (if (mkNotification "o1" "PSPR" "CANCEL_OR_REFUND" "true" none).modificationAction =
            some "cancel" then OrderStatus.CANCELLED else OrderStatus.REFUNDED)) ∧
    ledgerCount
      (Webhook.action (fun _ _ => true) (some "secret") "POST"
        (WebhookBody.items (mkNotification "o1" "PSPR" "CANCEL_OR_REFUND" "true" none) [])
        { orders := [mkOrder "o1" "u1" OrderStatus.SUCCESSFUL],
          payments :=
            [paymentOfNotification (mkNotification "o1" "PSPA" "AUTHORISATION" "true" none)],
          sessions := [] }).2
      (mkNotification "o1" "PSPR" "CANCEL_OR_REFUND" "true" none).merchantReference = 1 :=
  cancel_or_refund_refunds (fun _ _ => true) "secret"
    (mkNotification "o1" "PSPR" "CANCEL_OR_REFUND" "true" none) []
    { orders := [mkOrder "o1" "u1" OrderStatus.SUCCESSFUL],
      payments :=
        [paymentOfNotification (mkNotification "o1" "PSPA" "AUTHORISATION" "true" none)],
      sessions := [] }
    (paymentOfNotification (mkNotification "o1" "PSPA" "AUTHORISATION" "true" none))
    rfl rfl rfl (by decide) rfl rfl (by decide)
    (List.pairwise_singleton _ _) (Or.inl rfl)

end AdyenFlow
